import Mathlib

set_option linter.unusedVariables false

/-!
Shallow embedding of the BugFlow ticket-workflow server
(src/server/routes.ts, src/server/storage.ts, src/server/email.ts and the
drizzle schema / zod schemas shipped with src/server/seed.ts).

Database rows are Lean structures, the database is a record of lists, and
each Express route handler becomes a pure function from the actor, the
parsed request and the current database to a result together with the new
database.  `gen_random_uuid()` primary keys are modelled by a fresh-id
counter threaded through the state; `new Date()` timestamps are modelled by
an explicit `now : Nat` clock argument.  The SendGrid transport is an
explicit `Except String Unit` argument standing for the outcome of
`sgMail.send` (error value = the thrown error's message).
-/

namespace BugFlow

/-- roleEnum = ["user", "dev", "admin"]. -/
inductive Role
  | user
  | dev
  | admin
deriving DecidableEq, Repr

/-- ticketStatusEnum = ["open", "in_progress", "waiting_on_user", "resolved",
"closed", "rejected"] (`open` is a Lean keyword, hence `open_`). -/
inductive Status
  | open_
  | in_progress
  | waiting_on_user
  | resolved
  | closed
  | rejected
deriving DecidableEq, Repr

/-- ticketTypeEnum = ["bug", "feature_request"]. -/
inductive TicketType
  | bug
  | feature_request
deriving DecidableEq, Repr

/-- ticketPriorityEnum = ["low", "medium", "high", "critical"]. -/
inductive Priority
  | low
  | medium
  | high
  | critical
deriving DecidableEq, Repr

/-- ticketAppEnum. -/
inductive AppTag
  | dispatch
  | dispatch_admin
  | admin_panel
  | driver_app
  | account_web_booker
  | cash_web_booker
deriving DecidableEq, Repr

/-- historyKindEnum. -/
inductive HistoryKind
  | CREATED
  | STATUS_CHANGED
  | ASSIGNED
  | PUBLIC_NOTE
  | INTERNAL_NOTE
  | ATTACHMENT_ADDED
deriving DecidableEq, Repr

/-- emailStatusEnum = ["queued", "sent", "failed"]. -/
inductive EmailStatus
  | queued
  | sent
  | failed
deriving DecidableEq, Repr

/-- The raw enum string stored for a status (the pgEnum value). -/
def statusToString : Status → String
  | .open_ => "open"
  | .in_progress => "in_progress"
  | .waiting_on_user => "waiting_on_user"
  | .resolved => "resolved"
  | .closed => "closed"
  | .rejected => "rejected"

/-- STATUS_LABELS from the shared schema. -/
def STATUS_LABELS : Status → String
  | .open_ => "Open"
  | .in_progress => "In Progress"
  | .waiting_on_user => "Waiting on User"
  | .resolved => "Resolved"
  | .closed => "Closed"
  | .rejected => "Rejected"

/-- APP_LABELS from the shared schema. -/
def APP_LABELS : AppTag → String
  | .dispatch => "Dispatch"
  | .dispatch_admin => "Dispatch Admin"
  | .admin_panel => "Admin Panel"
  | .driver_app => "Driver App"
  | .account_web_booker => "Account Web Booker"
  | .cash_web_booker => "Cash Web Booker"

/-- users table row (password hash and google fields kept as plain data). -/
structure User where
  id : Nat
  username : String
  email : String
  password : String
  name : Option String
  role : Role
  isActive : Bool
  createdAt : Nat
  updatedAt : Nat
deriving DecidableEq, Repr

/-- tickets table row. -/
structure Ticket where
  id : Nat
  title : String
  description : String
  type : TicketType
  app : AppTag
  status : Status
  priority : Priority
  userId : Nat
  assignedToUserId : Option Nat
  assignedToName : Option String
  createdAt : Nat
  updatedAt : Nat
deriving DecidableEq, Repr

/-- comments table row. -/
structure Comment where
  id : Nat
  ticketId : Nat
  userId : Nat
  content : String
  isStatusChange : Bool
  isInternal : Bool
  createdAt : Nat
deriving DecidableEq, Repr

/-- attachments table row; `fileData` is the base64 payload column used by
DatabaseStorage.createAttachment and the download route. -/
structure Attachment where
  id : Nat
  ticketId : Nat
  originalName : String
  filename : String
  mimeType : String
  size : Nat
  fileData : String
  uploadedByUserId : Nat
  uploadedAt : Nat
deriving DecidableEq, Repr

/-- ticket_history table row. -/
structure HistoryEntry where
  id : Nat
  ticketId : Nat
  actorUserId : Nat
  actorName : String
  kind : HistoryKind
  oldValue : Option String
  newValue : Option String
  message : Option String
  createdAt : Nat
deriving DecidableEq, Repr

/-- email_logs table row. -/
structure EmailLog where
  id : Nat
  toAddresses : String
  subject : String
  body : String
  status : EmailStatus
  error : Option String
  createdAt : Nat
  sentAt : Option Nat
deriving DecidableEq, Repr

/-- app_settings singleton row (only the field the email path reads). -/
structure AppSettings where
  adminRecipients : String
deriving DecidableEq, Repr

/-- The database: one list per table, plus a fresh-id counter standing for
`gen_random_uuid()`. -/
structure DB where
  users : List User
  tickets : List Ticket
  comments : List Comment
  attachments : List Attachment
  history : List HistoryEntry
  emailLogs : List EmailLog
  settings : Option AppSettings
  nextId : Nat
deriving DecidableEq, Repr

/-- Error taxonomy of the HTTP layer: each `res.status(n).json({message})`
failure response, named after the spec's error classes. -/
inductive ApiError
  | validation (msg : String)
  | badRequest (msg : String)
  | limitExceeded (msg : String)
  | authentication (msg : String)
  | forbidden (msg : String)
  | notFound (msg : String)
  | serverError (msg : String)
deriving DecidableEq, Repr

/-- The HTTP status code each error class is sent with. -/
def ApiError.httpStatus : ApiError → Nat
  | .validation _ => 400
  | .badRequest _ => 400
  | .limitExceeded _ => 400
  | .authentication _ => 401
  | .forbidden _ => 403
  | .notFound _ => 404
  | .serverError _ => 500

/-! ## DatabaseStorage (src/server/storage.ts) -/

/-- DatabaseStorage.getUser: select from users where id = id. -/
def getUser (db : DB) (id : Nat) : Option User :=
  db.users.find? (fun u => u.id = id)

/-- DatabaseStorage.getTicketById. -/
def getTicketById (db : DB) (id : Nat) : Option Ticket :=
  db.tickets.find? (fun t => t.id = id)

/-- DatabaseStorage.getCommentsByTicketId (createdAt ordering of the SQL
query coincides with insertion order here, comments being append-only). -/
def getCommentsByTicketId (db : DB) (ticketId : Nat) : List Comment :=
  db.comments.filter (fun c => c.ticketId = ticketId)

/-- DatabaseStorage.getAttachmentsByTicketId. -/
def getAttachmentsByTicketId (db : DB) (ticketId : Nat) : List Attachment :=
  db.attachments.filter (fun a => a.ticketId = ticketId)

/-- DatabaseStorage.getAttachmentById. -/
def getAttachmentById (db : DB) (id : Nat) : Option Attachment :=
  db.attachments.find? (fun a => a.id = id)

/-- DatabaseStorage.getHistoryByTicketId. -/
def getHistoryByTicketId (db : DB) (ticketId : Nat) : List HistoryEntry :=
  db.history.filter (fun h => h.ticketId = ticketId)

/-- Fields accepted by createTicket after insertTicketSchema stripped id,
userId, status, assignedTo*, createdAt, updatedAt.  `priority` has a
database default, so drizzle-zod makes it optional. -/
structure InsertTicket where
  title : String
  description : String
  type : TicketType
  app : AppTag
  priority : Option Priority
deriving DecidableEq, Repr

/-- DatabaseStorage.createTicket: insert with the column defaults
status=open, priority=medium, createdAt=updatedAt=now. -/
def createTicket (db : DB) (input : InsertTicket) (userId : Nat) (now : Nat) :
    Ticket × DB :=
  let t : Ticket :=
    { id := db.nextId
      title := input.title
      description := input.description
      type := input.type
      app := input.app
      status := .open_
      priority := input.priority.getD .medium
      userId := userId
      assignedToUserId := none
      assignedToName := none
      createdAt := now
      updatedAt := now }
  (t, { db with tickets := db.tickets ++ [t], nextId := db.nextId + 1 })

/-- DatabaseStorage.updateTicketStatus: update set status, updatedAt=now
where id = id, returning the updated row. -/
def updateTicketStatus (db : DB) (id : Nat) (status : Status) (now : Nat) :
    Option Ticket × DB :=
  let db' :=
    { db with
      tickets := db.tickets.map (fun t =>
        if t.id = id then { t with status := status, updatedAt := now } else t) }
  match getTicketById db id with
  | none => (none, db')
  | some t => (some { t with status := status, updatedAt := now }, db')

/-- DatabaseStorage.assignTicket: update set assignedToUserId,
assignedToName, updatedAt=now where id = id, returning the updated row. -/
def assignTicket (db : DB) (id : Nat) (assignedToUserId : Option Nat)
    (assignedToName : Option String) (now : Nat) : Option Ticket × DB :=
  let db' :=
    { db with
      tickets := db.tickets.map (fun t =>
        if t.id = id then
          { t with assignedToUserId := assignedToUserId,
                   assignedToName := assignedToName, updatedAt := now }
        else t) }
  match getTicketById db id with
  | none => (none, db')
  | some t =>
      (some { t with assignedToUserId := assignedToUserId,
                     assignedToName := assignedToName, updatedAt := now }, db')

/-- DatabaseStorage.deleteTicket: delete attachments, comments, history for
the ticket, then the ticket row itself, in that order. -/
def deleteTicket (db : DB) (id : Nat) : DB :=
  let db1 := { db with attachments := db.attachments.filter (fun a => a.ticketId ≠ id) }
  let db2 := { db1 with comments := db1.comments.filter (fun c => c.ticketId ≠ id) }
  let db3 := { db2 with history := db2.history.filter (fun h => h.ticketId ≠ id) }
  { db3 with tickets := db3.tickets.filter (fun t => t.id ≠ id) }

/-- Fields of a comment insert (insertCommentSchema keeps ticketId, content,
isInternal; handlers add userId and isStatusChange). -/
structure InsertComment where
  ticketId : Nat
  userId : Nat
  content : String
  isStatusChange : Bool
  isInternal : Bool
deriving DecidableEq, Repr

/-- DatabaseStorage.createComment. -/
def createComment (db : DB) (c : InsertComment) (now : Nat) : Comment × DB :=
  let row : Comment :=
    { id := db.nextId
      ticketId := c.ticketId
      userId := c.userId
      content := c.content
      isStatusChange := c.isStatusChange
      isInternal := c.isInternal
      createdAt := now }
  (row, { db with comments := db.comments ++ [row], nextId := db.nextId + 1 })

/-- Fields of a history insert. -/
structure InsertHistory where
  ticketId : Nat
  actorUserId : Nat
  actorName : String
  kind : HistoryKind
  oldValue : Option String
  newValue : Option String
  message : Option String
deriving DecidableEq, Repr

/-- DatabaseStorage.createHistory. -/
def createHistory (db : DB) (e : InsertHistory) (now : Nat) : HistoryEntry × DB :=
  let row : HistoryEntry :=
    { id := db.nextId
      ticketId := e.ticketId
      actorUserId := e.actorUserId
      actorName := e.actorName
      kind := e.kind
      oldValue := e.oldValue
      newValue := e.newValue
      message := e.message
      createdAt := now }
  (row, { db with history := db.history ++ [row], nextId := db.nextId + 1 })

/-- Fields of an attachment insert (everything but id and uploadedAt). -/
structure InsertAttachment where
  ticketId : Nat
  originalName : String
  filename : String
  mimeType : String
  size : Nat
  fileData : String
  uploadedByUserId : Nat
deriving DecidableEq, Repr

/-- DatabaseStorage.createAttachment. -/
def createAttachment (db : DB) (a : InsertAttachment) (now : Nat) :
    Attachment × DB :=
  let row : Attachment :=
    { id := db.nextId
      ticketId := a.ticketId
      originalName := a.originalName
      filename := a.filename
      mimeType := a.mimeType
      size := a.size
      fileData := a.fileData
      uploadedByUserId := a.uploadedByUserId
      uploadedAt := now }
  (row, { db with attachments := db.attachments ++ [row], nextId := db.nextId + 1 })

/-- DatabaseStorage.createEmailLog. -/
def createEmailLog (db : DB) (toAddresses subject body : String) (now : Nat) :
    EmailLog × DB :=
  let row : EmailLog :=
    { id := db.nextId
      toAddresses := toAddresses
      subject := subject
      body := body
      status := .queued
      error := none
      createdAt := now
      sentAt := none }
  (row, { db with emailLogs := db.emailLogs ++ [row], nextId := db.nextId + 1 })

/-- DatabaseStorage.updateEmailLog: set status, error (or null), and
sentAt = now iff the new status is "sent". -/
def updateEmailLog (db : DB) (id : Nat) (status : EmailStatus)
    (error : Option String) (now : Nat) : DB :=
  { db with
    emailLogs := db.emailLogs.map (fun l =>
      if l.id = id then
        { l with status := status, error := error,
                 sentAt := if status = .sent then some now else none }
      else l) }

/-! ## Email dispatch (src/server/email.ts) -/

/-- getAdminRecipients: the settings row's comma-separated list (when the
string is truthy), trimmed and with empty entries dropped, falling back to
the hard-coded default pair. -/
def getAdminRecipients (db : DB) : List String :=
  match db.settings with
  | some s =>
      if s.adminRecipients ≠ "" then
        ((s.adminRecipients.splitOn ",").map String.trim).filter (fun e => e ≠ "")
      else ["peter@abacusonline.net", "teambackendcoders@gmail.com"]
  | none => ["peter@abacusonline.net", "teambackendcoders@gmail.com"]

/-- buildEmailHtml (whitespace of the template literal compressed; no claim
depends on the body text). -/
def buildEmailHtml (title : String) (lines : List String) : String :=
  "<div><div><h2>BugFlow - " ++ title ++ "</h2></div><div>"
    ++ String.intercalate ""
        (lines.map (fun l => "<p>" ++ l ++ "</p>"))
    ++ "</div><p>Automated notification from BugFlow</p></div>"

/-- sendEmail: write an EmailLog row in `queued` state, attempt the
transport, then update the row to `sent`, or to `failed` carrying
`error.message || "Unknown error"`.  Returns the handler's boolean. -/
def sendEmail (db : DB) (toAddrs : List String) (subject html text : String)
    (transport : Except String Unit) (now : Nat) : Bool × DB :=
  let (log, db1) := createEmailLog db (String.intercalate "," toAddrs) subject html now
  match transport with
  | .ok _ => (true, updateEmailLog db1 log.id .sent none now)
  | .error msg =>
      let errMsg := if msg = "" then "Unknown error" else msg
      (false, updateEmailLog db1 log.id .failed (some errMsg) now)

/-- sendTicketEmail with type "status_changed": one sendEmail to the ticket
owner plus the admin recipients. -/
def sendTicketEmailStatusChanged (db : DB) (ticket : Ticket) (owner : User)
    (oldStatus newStatus : Status) (changedBy : String)
    (transport : Except String Unit) (now : Nat) : Bool × DB :=
  let oldLabel := STATUS_LABELS oldStatus
  let newLabel := STATUS_LABELS newStatus
  let (_, db1) := sendEmail db (owner.email :: getAdminRecipients db)
    ("[BugFlow] Status Update: \"" ++ ticket.title ++ "\" - " ++ newLabel)
    (buildEmailHtml "Ticket Status Updated"
      [ "<strong>Ticket:</strong> " ++ ticket.title,
        "<strong>App:</strong> " ++ APP_LABELS ticket.app,
        "<strong>Status:</strong> <span>" ++ oldLabel ++ "</span> &rarr; <strong>" ++ newLabel ++ "</strong>",
        "<strong>Updated by:</strong> " ++ changedBy ])
    ("Ticket \"" ++ ticket.title ++ "\" status changed from " ++ oldLabel ++ " to " ++ newLabel)
    transport now
  (true, db1)

/-- sendTicketEmail with type "created": one sendEmail to the admin
recipients and one confirmation to the submitter. -/
def sendTicketEmailCreated (db : DB) (ticket : Ticket) (submitter : User)
    (transport : Except String Unit) (now : Nat) : Bool × DB :=
  let appLabel := APP_LABELS ticket.app
  let statusLabel := STATUS_LABELS ticket.status
  let typeLabel := if ticket.type = .bug then "Bug" else "Feature"
  let (_, db1) := sendEmail db (getAdminRecipients db)
    ("[BugFlow] New " ++ typeLabel ++ " - " ++ ticket.title ++ " (" ++ appLabel ++ ")")
    (buildEmailHtml "New Ticket Submitted"
      [ "<strong>Title:</strong> " ++ ticket.title,
        "<strong>App:</strong> " ++ appLabel,
        "<strong>Submitted by:</strong> " ++ submitter.username,
        "<strong>Description:</strong><br/>" ++ ticket.description ])
    ("New ticket: " ++ ticket.title ++ " by " ++ submitter.username)
    transport now
  let (_, db2) := sendEmail db1 [submitter.email]
    ("[BugFlow] Ticket Received: " ++ ticket.title)
    (buildEmailHtml "Ticket Confirmation"
      [ "<p>Your ticket has been submitted successfully.</p>",
        "<strong>Title:</strong> " ++ ticket.title,
        "<strong>App:</strong> " ++ appLabel,
        "<strong>Status:</strong> " ++ statusLabel ])
    ("Your ticket \"" ++ ticket.title ++ "\" has been submitted.")
    transport now
  (true, db2)

/-! ## Route handlers (src/server/routes.ts)

Each handler takes the authenticated actor (requireAuth has already admitted
the request), the parsed params/body, the clock, the transport outcome where
the handler sends email, and the database.  It returns the response —
`Except ApiError` of the JSON payload — together with the database after the
handler ran.  Error returns happen at the exact points the source returns
early, so the database they carry is the state at that point. -/

/-- GET /api/tickets/:id. -/
def getTicketRoute (actor : User) (id : Nat) (db : DB) : Except ApiError Ticket :=
  match getTicketById db id with
  | none => .error (.notFound "Ticket not found")
  | some ticket =>
      if ticket.userId ≠ actor.id ∧ actor.role ≠ .admin ∧ actor.role ≠ .dev then
        .error (.forbidden "Not authorized")
      else if actor.role = .dev ∧ ticket.userId ≠ actor.id ∧
          ticket.assignedToUserId ≠ some actor.id then
        .error (.forbidden "Not authorized")
      else .ok ticket

/-- POST /api/tickets.  The zod insertTicketSchema requires title and
description to be strings and type/app/priority to be enum members, which
the typed `InsertTicket` already guarantees — it imposes no length bounds,
so parsing never fails here. -/
def createTicketRoute (actor : User) (input : InsertTicket) (now : Nat)
    (transport : Except String Unit) (db : DB) : Except ApiError Ticket × DB :=
  let (ticket, db1) := createTicket db input actor.id now
  let (_, db2) := createHistory db1
    { ticketId := ticket.id
      actorUserId := actor.id
      actorName := actor.username
      kind := .CREATED
      oldValue := none
      newValue := none
      message := some ("Ticket created: " ++ ticket.title) } now
  let db3 := (sendTicketEmailCreated db2 ticket actor transport now).2
  (.ok ticket, db3)

/-- Body of PATCH /api/tickets/:id/status after updateTicketStatusSchema. -/
structure StatusUpdate where
  status : Status
  comment : Option String
deriving DecidableEq, Repr

/-- The `if (data.comment)` step of the status handler: create the
status-change comment when a non-empty comment string came with the body
(the empty string is falsy in the source's truthiness test). -/
def statusCommentStep (db : DB) (id actorId : Nat) (comment : Option String)
    (now : Nat) : DB :=
  match comment with
  | some c =>
      if c = "" then db
      else (createComment db
        { ticketId := id, userId := actorId, content := c,
          isStatusChange := true, isInternal := false } now).2
  | none => db

/-- The email block of the status handler: look up the ticket owner and, if
present, send the status_changed notification (the source's try/catch can
only swallow transport failures, which sendEmail already absorbs). -/
def statusChangedEmailStep (db : DB) (ticket : Ticket) (newStatus : Status)
    (oldStatus : Status) (changedBy : String) (transport : Except String Unit)
    (now : Nat) : DB :=
  match getUser db ticket.userId with
  | some owner =>
      (sendTicketEmailStatusChanged db { ticket with status := newStatus }
        owner oldStatus newStatus changedBy transport now).2
  | none => db

/-- PATCH /api/tickets/:id/status (requireAdminOrDev then the handler). -/
def changeStatusRoute (actor : User) (id : Nat) (body : StatusUpdate)
    (now : Nat) (transport : Except String Unit) (db : DB) :
    Except ApiError (Option Ticket) × DB :=
  if actor.role ≠ .admin ∧ actor.role ≠ .dev then
    (.error (.forbidden "Admin or dev access required"), db)
  else
    match getTicketById db id with
    | none => (.error (.notFound "Ticket not found"), db)
    | some ticket =>
        if actor.role = .dev ∧ ticket.assignedToUserId ≠ some actor.id then
          (.error (.forbidden "Can only update tickets assigned to you"), db)
        else
          let oldStatus := ticket.status
          let (updated, db1) := updateTicketStatus db id body.status now
          let db2 := statusCommentStep db1 id actor.id body.comment now
          let (_, db3) := createHistory db2
            { ticketId := id
              actorUserId := actor.id
              actorName := actor.username
              kind := .STATUS_CHANGED
              oldValue := some (statusToString oldStatus)
              newValue := some (statusToString body.status)
              message := some ("Status changed from " ++ STATUS_LABELS oldStatus
                ++ " to " ++ STATUS_LABELS body.status) } now
          let db4 := statusChangedEmailStep db3 ticket body.status oldStatus
            actor.username transport now
          (.ok updated, db4)

/-- GET /api/tickets/:id/comments: 404 when the ticket is absent, otherwise
the ticket's comments, internal ones dropped unless the actor is admin or
dev. -/
def getCommentsRoute (actor : User) (id : Nat) (db : DB) :
    Except ApiError (List Comment) :=
  match getTicketById db id with
  | none => .error (.notFound "Ticket not found")
  | some _ =>
      let allComments := getCommentsByTicketId db id
      let isAdminOrDev := actor.role = .admin ∨ actor.role = .dev
      .ok (if isAdminOrDev then allComments
           else allComments.filter (fun c => !c.isInternal))

/-- GET /api/tickets/:id/history: the ticket's history, INTERNAL_NOTE
entries dropped unless the actor is admin or dev (no existence or ownership
check). -/
def getHistoryRoute (actor : User) (id : Nat) (db : DB) : List HistoryEntry :=
  let history := getHistoryByTicketId db id
  let isAdminOrDev := actor.role = .admin ∨ actor.role = .dev
  if isAdminOrDev then history
  else history.filter (fun h => h.kind ≠ .INTERNAL_NOTE)

/-- Attachment metadata as returned to clients: every column except the
fileData payload. -/
structure AttachmentMeta where
  id : Nat
  ticketId : Nat
  originalName : String
  filename : String
  mimeType : String
  size : Nat
  uploadedByUserId : Nat
  uploadedAt : Nat
deriving DecidableEq, Repr

/-- Projection dropping fileData (`const { fileData, ...rest } = att`). -/
def Attachment.meta (a : Attachment) : AttachmentMeta :=
  { id := a.id, ticketId := a.ticketId, originalName := a.originalName,
    filename := a.filename, mimeType := a.mimeType, size := a.size,
    uploadedByUserId := a.uploadedByUserId, uploadedAt := a.uploadedAt }

/-- GET /api/tickets/:id/attachments: metadata of the ticket's attachments,
for any authenticated actor (no existence or ownership check). -/
def getAttachmentsRoute (actor : User) (id : Nat) (db : DB) :
    Except ApiError (List AttachmentMeta) :=
  .ok ((getAttachmentsByTicketId db id).map Attachment.meta)

/-- The download response: headers derived from the row plus the decoded
payload (kept base64 here — decoding is representation only). -/
structure DownloadPayload where
  contentType : String
  contentDisposition : String
  data : String
deriving DecidableEq, Repr

/-- GET /api/attachments/:id/download: 404 when the row is absent or its
fileData is empty (falsy), the payload otherwise; no ownership check. -/
def downloadAttachmentRoute (actor : User) (id : Nat) (db : DB) :
    Except ApiError DownloadPayload :=
  match getAttachmentById db id with
  | none => .error (.notFound "Attachment not found")
  | some att =>
      if att.fileData = "" then .error (.notFound "File data not found")
      else .ok
        { contentType := att.mimeType
          contentDisposition := "inline; filename=\"" ++ att.originalName ++ "\""
          data := att.fileData }

/-- A multer-parsed upload: original name, MIME type, byte size, and the
buffer (already base64, matching `file.buffer.toString("base64")`). -/
structure UploadFile where
  originalname : String
  mimetype : String
  size : Nat
  bufferB64 : String
deriving DecidableEq, Repr

/-- path.extname, simplified to "last dot onwards, else empty". -/
def extnameOf (s : String) : String :=
  let parts := s.splitOn "."
  if parts.length ≤ 1 then "" else "." ++ ((parts.getLast?).getD "")

/-- The body of the upload loop: create one attachment row per file.
`rand` stands for `Math.random().toString(36).slice(2)` in the unique
filename. -/
def uploadFiles (db : DB) (id : Nat) (actorId : Nat) (files : List UploadFile)
    (now : Nat) (rand : String) : List AttachmentMeta × DB :=
  files.foldl
    (fun (acc : List AttachmentMeta × DB) file =>
      let (att, db') := createAttachment acc.2
        { ticketId := id
          originalName := file.originalname
          filename := toString now ++ "-" ++ rand ++ extnameOf file.originalname
          mimeType := file.mimetype
          size := file.size
          fileData := file.bufferB64
          uploadedByUserId := actorId } now
      (acc.1 ++ [att.meta], db'))
    ([], db)

/-- POST /api/tickets/:id/attachments: 404 when the ticket is absent, 400
when the batch is empty, 400 "Max 10 attachments per ticket" when existing
plus new would exceed 10; otherwise persist every file and append a single
ATTACHMENT_ADDED history entry. -/
def uploadAttachmentsRoute (actor : User) (id : Nat) (files : List UploadFile)
    (now : Nat) (rand : String) (db : DB) :
    Except ApiError (List AttachmentMeta) × DB :=
  match getTicketById db id with
  | none => (.error (.notFound "Ticket not found"), db)
  | some _ =>
      let existing := getAttachmentsByTicketId db id
      if files.length = 0 then (.error (.badRequest "No files uploaded"), db)
      else if existing.length + files.length > 10 then
        (.error (.limitExceeded "Max 10 attachments per ticket"), db)
      else
        let (results, db1) := uploadFiles db id actor.id files now rand
        let (_, db2) := createHistory db1
          { ticketId := id
            actorUserId := actor.id
            actorName := actor.username
            kind := .ATTACHMENT_ADDED
            oldValue := none
            newValue := none
            message := some (toString files.length ++ " attachment(s) added") } now
        (.ok results, db2)

/-- Modelled from the spec: the DELETE /api/tickets/:id route handler is not
among the repository's server sources — only its client caller
(deleteMutation in the ticket-detail page) and DatabaseStorage.deleteTicket
exist.  Per the spec, DeleteTicket is authorized for admin only
(ForbiddenError otherwise) and on success performs the cascading delete via
the storage layer. -/
def deleteTicketRoute (actor : User) (id : Nat) (db : DB) :
    Except ApiError Unit × DB :=
  if actor.role ≠ .admin then (.error (.forbidden "Admin access required"), db)
  else (.ok (), deleteTicket db id)

/-! ## Concrete sample data (for witnesses) -/

/-- An admin actor. -/
def adminUser : User :=
  { id := 1, username := "admin", email := "admin@bugflow.app", password := "h",
    name := none, role := .admin, isActive := true, createdAt := 0, updatedAt := 0 }

/-- A dev actor, assignee of ticket 10. -/
def devUser : User :=
  { id := 2, username := "sarah_dev", email := "sarah@example.com", password := "h",
    name := none, role := .dev, isActive := true, createdAt := 0, updatedAt := 0 }

/-- A plain user, submitter of the sample tickets. -/
def plainUser : User :=
  { id := 3, username := "mike_tester", email := "mike@example.com", password := "h",
    name := none, role := .user, isActive := true, createdAt := 0, updatedAt := 0 }

/-- A second dev, not assigned to ticket 10. -/
def otherDev : User :=
  { id := 4, username := "joe_dev", email := "joe@example.com", password := "h",
    name := none, role := .dev, isActive := true, createdAt := 0, updatedAt := 0 }

/-- Ticket 10: submitted by user 3, assigned to dev 2. -/
def ticket1 : Ticket :=
  { id := 10, title := "Login button unresponsive", description := "Does not respond to taps",
    type := .bug, app := .dispatch, status := .open_, priority := .high,
    userId := 3, assignedToUserId := some 2, assignedToName := some "sarah_dev",
    createdAt := 5, updatedAt := 6 }

/-- Ticket 11: submitted by user 3, unassigned, holding 7 attachments. -/
def ticket2 : Ticket :=
  { id := 11, title := "Dark mode support", description := "Add a dark mode",
    type := .feature_request, app := .driver_app, status := .open_, priority := .medium,
    userId := 3, assignedToUserId := none, assignedToName := none,
    createdAt := 5, updatedAt := 5 }

/-- A sample attachment row on the given ticket. -/
def sampleAttachment (id ticketId : Nat) : Attachment :=
  { id := id, ticketId := ticketId, originalName := "shot.png", filename := "1-r.png",
    mimeType := "image/png", size := 3, fileData := "QUJD",
    uploadedByUserId := 3, uploadedAt := 6 }

/-- The sample database: ticket 10 with 3 comments (one internal), 2
attachments and 4 history entries (one INTERNAL_NOTE), ticket 11 with 7
attachments. -/
def baseDB : DB :=
  { users := [adminUser, devUser, plainUser, otherDev]
    tickets := [ticket1, ticket2]
    comments :=
      [ { id := 20, ticketId := 10, userId := 3, content := "It fails on iOS",
          isStatusChange := false, isInternal := false, createdAt := 5 },
        { id := 21, ticketId := 10, userId := 1, content := "internal triage note",
          isStatusChange := false, isInternal := true, createdAt := 6 },
        { id := 22, ticketId := 10, userId := 2, content := "Investigating",
          isStatusChange := false, isInternal := false, createdAt := 7 } ]
    attachments :=
      [ sampleAttachment 40 10, sampleAttachment 41 10,
        sampleAttachment 50 11, sampleAttachment 51 11, sampleAttachment 52 11,
        sampleAttachment 53 11, sampleAttachment 54 11,
        sampleAttachment 55 11, sampleAttachment 56 11 ]
    history :=
      [ { id := 30, ticketId := 10, actorUserId := 3, actorName := "mike_tester",
          kind := .CREATED, oldValue := none, newValue := none,
          message := some "Ticket created: Login button unresponsive", createdAt := 5 },
        { id := 31, ticketId := 10, actorUserId := 1, actorName := "admin",
          kind := .INTERNAL_NOTE, oldValue := none, newValue := none,
          message := some "Internal note added by admin", createdAt := 6 },
        { id := 32, ticketId := 10, actorUserId := 1, actorName := "admin",
          kind := .ASSIGNED, oldValue := some "Unassigned", newValue := some "sarah_dev",
          message := some "Assigned to sarah_dev", createdAt := 6 },
        { id := 33, ticketId := 10, actorUserId := 2, actorName := "sarah_dev",
          kind := .PUBLIC_NOTE, oldValue := none, newValue := none,
          message := some "Public note added by sarah_dev", createdAt := 7 } ]
    emailLogs := []
    settings := none
    nextId := 100 }

/-- A five-file upload batch. -/
def fiveFiles : List UploadFile :=
  [ { originalname := "a.png", mimetype := "image/png", size := 1, bufferB64 := "QQ" },
    { originalname := "b.png", mimetype := "image/png", size := 1, bufferB64 := "Qg" },
    { originalname := "c.png", mimetype := "image/png", size := 1, bufferB64 := "Qw" },
    { originalname := "d.png", mimetype := "image/png", size := 1, bufferB64 := "RA" },
    { originalname := "e.png", mimetype := "image/png", size := 1, bufferB64 := "RQ" } ]

/-- A create-ticket input whose title has only 4 characters. -/
def shortTitleInput : InsertTicket :=
  { title := "Bug!", description := "short", type := .bug, app := .dispatch,
    priority := none }

/-! ## Helper lemmas -/

/-- Mapping an id-conditional update over rows none of which carry that id
is the identity. -/
theorem map_if_id_of_ne (f : EmailLog → EmailLog) (j : Nat)
    (logs : List EmailLog) (h : ∀ l ∈ logs, l.id ≠ j) :
    logs.map (fun l => if l.id = j then f l else l) = logs := by
  induction logs with
  | nil => rfl
  | cons x xs ih =>
      have hx : x.id ≠ j := h x (List.mem_cons_self x xs)
      simp only [List.map_cons, if_neg hx]
      rw [ih (fun l hl => h l (List.mem_cons_of_mem x hl))]

/-- sendEmail appends exactly one log row: `failed` with the captured
non-null error on transport failure, `sent` on success. -/
theorem sendEmail_emailLogs (db : DB) (toAddrs : List String)
    (subject html text : String) (tr : Except String Unit) (now : Nat)
    (hfresh : ∀ l ∈ db.emailLogs, l.id ≠ db.nextId) :
    ∃ log : EmailLog,
      log.id = db.nextId
      ∧ (sendEmail db toAddrs subject html text tr now).2.emailLogs
        = db.emailLogs ++ [log]
      ∧ (∀ m, tr = .error m →
          log.status = .failed
          ∧ log.error = some (if m = "" then "Unknown error" else m))
      ∧ (tr = .ok () → log.status = .sent ∧ log.error = none) := by
  cases tr with
  | ok u =>
      cases u
      refine ⟨{ id := db.nextId, toAddresses := String.intercalate "," toAddrs,
                subject := subject, body := html, status := .sent, error := none,
                createdAt := now, sentAt := some now }, rfl, ?_, ?_, ?_⟩
      · simp only [sendEmail, createEmailLog, updateEmailLog, List.map_append,
          List.map_cons, List.map_nil, if_pos rfl]
        rw [map_if_id_of_ne _ db.nextId db.emailLogs hfresh]
        simp
      · intro m hm; cases hm
      · intro _; exact ⟨rfl, rfl⟩
  | error m =>
      refine ⟨{ id := db.nextId, toAddresses := String.intercalate "," toAddrs,
                subject := subject, body := html, status := .failed,
                error := some (if m = "" then "Unknown error" else m),
                createdAt := now, sentAt := none }, rfl, ?_, ?_, ?_⟩
      · simp only [sendEmail, createEmailLog, updateEmailLog, List.map_append,
          List.map_cons, List.map_nil, if_pos rfl]
        rw [map_if_id_of_ne _ db.nextId db.emailLogs hfresh]
        simp
      · intro m' hm'
        cases hm'
        exact ⟨rfl, rfl⟩
      · intro hm; cases hm

/-- sendEmail touches only emailLogs and the id counter. -/
theorem sendEmail_frame (db : DB) (toAddrs : List String)
    (subject html text : String) (tr : Except String Unit) (now : Nat) :
    (sendEmail db toAddrs subject html text tr now).2.users = db.users
    ∧ (sendEmail db toAddrs subject html text tr now).2.tickets = db.tickets
    ∧ (sendEmail db toAddrs subject html text tr now).2.comments = db.comments
    ∧ (sendEmail db toAddrs subject html text tr now).2.attachments = db.attachments
    ∧ (sendEmail db toAddrs subject html text tr now).2.history = db.history := by
  cases tr <;> exact ⟨rfl, rfl, rfl, rfl, rfl⟩

/-- The status-changed notification touches only emailLogs and the id
counter. -/
theorem sendTicketEmailStatusChanged_frame (db : DB) (t : Ticket) (owner : User)
    (os ns : Status) (cb : String) (tr : Except String Unit) (now : Nat) :
    (sendTicketEmailStatusChanged db t owner os ns cb tr now).2.users = db.users
    ∧ (sendTicketEmailStatusChanged db t owner os ns cb tr now).2.tickets = db.tickets
    ∧ (sendTicketEmailStatusChanged db t owner os ns cb tr now).2.comments = db.comments
    ∧ (sendTicketEmailStatusChanged db t owner os ns cb tr now).2.history = db.history := by
  cases tr <;> exact ⟨rfl, rfl, rfl, rfl⟩

/-- The optional status-change comment touches only the comments table and
the id counter. -/
theorem statusCommentStep_frame (db : DB) (id aid : Nat) (c : Option String)
    (now : Nat) :
    (statusCommentStep db id aid c now).users = db.users
    ∧ (statusCommentStep db id aid c now).tickets = db.tickets
    ∧ (statusCommentStep db id aid c now).history = db.history
    ∧ (statusCommentStep db id aid c now).emailLogs = db.emailLogs
    ∧ db.nextId ≤ (statusCommentStep db id aid c now).nextId := by
  cases c with
  | none => exact ⟨rfl, rfl, rfl, rfl, Nat.le_refl _⟩
  | some s =>
      by_cases h : s = ""
      · simp [statusCommentStep, if_pos h]
      · simp [statusCommentStep, if_neg h, createComment]

/-- The email block of the status handler touches only emailLogs and the id
counter. -/
theorem statusChangedEmailStep_frame (db : DB) (ticket : Ticket)
    (ns os : Status) (cb : String) (tr : Except String Unit) (now : Nat) :
    (statusChangedEmailStep db ticket ns os cb tr now).users = db.users
    ∧ (statusChangedEmailStep db ticket ns os cb tr now).tickets = db.tickets
    ∧ (statusChangedEmailStep db ticket ns os cb tr now).comments = db.comments
    ∧ (statusChangedEmailStep db ticket ns os cb tr now).history = db.history := by
  unfold statusChangedEmailStep
  cases getUser db ticket.userId with
  | none => exact ⟨rfl, rfl, rfl, rfl⟩
  | some owner =>
      obtain ⟨h1, h2, h3, h4⟩ := sendTicketEmailStatusChanged_frame db
        { ticket with status := ns } owner os ns cb tr now
      exact ⟨h1, h2, h3, h4⟩

/-- Composed effect of comment step, history insert and email block on the
history table: exactly one entry is appended, carrying the inserted
fields. -/
theorem statusPipeline_history (dbU : DB) (id aid : Nat) (c : Option String)
    (now : Nat) (entryIn : InsertHistory) (ticket : Ticket) (ns os : Status)
    (cb : String) (tr : Except String Unit) :
    ∃ e : HistoryEntry,
      (statusChangedEmailStep
          (createHistory (statusCommentStep dbU id aid c now) entryIn now).2
          ticket ns os cb tr now).history
        = dbU.history ++ [e]
      ∧ e.kind = entryIn.kind
      ∧ e.oldValue = entryIn.oldValue
      ∧ e.newValue = entryIn.newValue := by
  obtain ⟨-, -, -, hh⟩ := statusChangedEmailStep_frame
    ((createHistory (statusCommentStep dbU id aid c now) entryIn now).2)
    ticket ns os cb tr now
  refine ⟨{ id := (statusCommentStep dbU id aid c now).nextId,
            ticketId := entryIn.ticketId, actorUserId := entryIn.actorUserId,
            actorName := entryIn.actorName, kind := entryIn.kind,
            oldValue := entryIn.oldValue, newValue := entryIn.newValue,
            message := entryIn.message, createdAt := now }, ?_, rfl, rfl, rfl⟩
  rw [hh]
  dsimp only [createHistory]
  rw [(statusCommentStep_frame dbU id aid c now).2.2.1]

/-! ## Claims -/

/-- C1: a ChangeStatus call by a dev actor on an existing ticket whose
assignedToUserId is not the actor's id fails with ForbiddenError (HTTP 403)
and leaves the database — ticket, history, email log — unchanged. -/
theorem changeStatus_dev_unassigned_forbidden (actor : User) (id : Nat)
    (body : StatusUpdate) (now : Nat) (tr : Except String Unit) (db : DB)
    (t : Ticket)
    (hrole : actor.role = .dev)
    (hfind : getTicketById db id = some t)
    (hassign : t.assignedToUserId ≠ some actor.id) :
    changeStatusRoute actor id body now tr db
      = (.error (.forbidden "Can only update tickets assigned to you"), db)
    ∧ (ApiError.forbidden "Can only update tickets assigned to you").httpStatus
      = 403 := by
  constructor
  · unfold changeStatusRoute
    rw [hfind]
    simp [hrole, hassign]
  · rfl

/-- C1 witness: the dev with id 4 may not change the status of ticket 10,
which is assigned to dev 2; the call 403s and the database is unchanged. -/
theorem changeStatus_dev_unassigned_forbidden_witness :
    changeStatusRoute otherDev 10 { status := .resolved, comment := none } 7
        (.ok ()) baseDB
      = (.error (.forbidden "Can only update tickets assigned to you"), baseDB)
    ∧ (ApiError.forbidden "Can only update tickets assigned to you").httpStatus
      = 403 :=
  changeStatus_dev_unassigned_forbidden otherDev 10
    { status := .resolved, comment := none } 7 (.ok ()) baseDB ticket1
    rfl rfl (by decide)

/-- C2: a user-role read of a ticket's comments never returns an internal
comment and a user-role read of its history never returns an INTERNAL_NOTE
entry, while admin and dev actors receive the unfiltered lists. -/
theorem internal_visibility_filter (actor : User) (id : Nat) (db : DB) :
    (actor.role = .user →
      (∀ l, getCommentsRoute actor id db = .ok l → ∀ c ∈ l, c.isInternal = false)
      ∧ (∀ h ∈ getHistoryRoute actor id db, h.kind ≠ .INTERNAL_NOTE))
    ∧ ((actor.role = .admin ∨ actor.role = .dev) →
      ((getTicketById db id).isSome →
        getCommentsRoute actor id db = .ok (getCommentsByTicketId db id))
      ∧ getHistoryRoute actor id db = getHistoryByTicketId db id) := by
  constructor
  · intro hrole
    constructor
    · intro l hl c hc
      unfold getCommentsRoute at hl
      cases hfind : getTicketById db id with
      | none => rw [hfind] at hl; cases hl
      | some t =>
          rw [hfind] at hl
          simp only [hrole] at hl
          have : l = (getCommentsByTicketId db id).filter (fun c => !c.isInternal) := by
            simpa using hl.symm
          subst this
          have := List.mem_filter.mp hc
          simpa using this.2
    · intro h hh
      unfold getHistoryRoute at hh
      simp only [hrole] at hh
      simp only [reduceCtorEq, or_self, if_false] at hh
      have := List.mem_filter.mp hh
      simpa using this.2
  · intro hrole
    constructor
    · intro hsome
      unfold getCommentsRoute
      cases hfind : getTicketById db id with
      | none => rw [hfind] at hsome; cases hsome
      | some t => simp [hrole]
    · unfold getHistoryRoute
      simp [hrole]

/-- C2 witness: the plain user's reads of ticket 10 (which holds an
internal comment and an INTERNAL_NOTE history entry) are internal-free. -/
theorem internal_visibility_filter_witness :
    (∀ l, getCommentsRoute plainUser 10 baseDB = .ok l →
        ∀ c ∈ l, c.isInternal = false)
    ∧ (∀ h ∈ getHistoryRoute plainUser 10 baseDB, h.kind ≠ .INTERNAL_NOTE) :=
  (internal_visibility_filter plainUser 10 baseDB).1 rfl

/-- C3: an attachment batch on an existing ticket whose existing count plus
batch size exceeds 10 is rejected whole with LimitExceededError (HTTP 400)
and the database is unchanged — no file of the batch is persisted. -/
theorem uploadAttachments_over_limit_rejected (actor : User) (id : Nat)
    (files : List UploadFile) (now : Nat) (rand : String) (db : DB) (t : Ticket)
    (hfind : getTicketById db id = some t)
    (hnonempty : files.length ≠ 0)
    (hover : (getAttachmentsByTicketId db id).length + files.length > 10) :
    uploadAttachmentsRoute actor id files now rand db
      = (.error (.limitExceeded "Max 10 attachments per ticket"), db)
    ∧ (ApiError.limitExceeded "Max 10 attachments per ticket").httpStatus
      = 400 := by
  constructor
  · unfold uploadAttachmentsRoute
    rw [hfind]
    simp [hnonempty, hover]
  · rfl

/-- C3 witness: uploading 5 files to ticket 11, which already holds 7
attachments, fails entirely with the 400 limit error and persists nothing. -/
theorem uploadAttachments_over_limit_rejected_witness :
    uploadAttachmentsRoute plainUser 11 fiveFiles 7 "r" baseDB
      = (.error (.limitExceeded "Max 10 attachments per ticket"), baseDB)
    ∧ (ApiError.limitExceeded "Max 10 attachments per ticket").httpStatus
      = 400 :=
  uploadAttachments_over_limit_rejected plainUser 11 fiveFiles 7 "r" baseDB
    ticket2 rfl (by decide) (by decide)

/-- C4: for an existing ticket and any target status, ChangeStatus by an
authorized actor (admin, or dev assigned to the ticket) succeeds whatever
the current status — no transition graph — and appends one STATUS_CHANGED
history entry recording old and new value; in particular a no-op
transition records oldValue = newValue. -/
theorem changeStatus_any_transition (actor : User) (id : Nat)
    (body : StatusUpdate) (now : Nat) (tr : Except String Unit) (db : DB)
    (t : Ticket)
    (hauth : actor.role = .admin
      ∨ (actor.role = .dev ∧ t.assignedToUserId = some actor.id))
    (hfind : getTicketById db id = some t) :
    (changeStatusRoute actor id body now tr db).1
      = .ok (some { t with status := body.status, updatedAt := now })
    ∧ ∃ e : HistoryEntry,
        (changeStatusRoute actor id body now tr db).2.history = db.history ++ [e]
        ∧ e.kind = .STATUS_CHANGED
        ∧ e.oldValue = some (statusToString t.status)
        ∧ e.newValue = some (statusToString body.status)
        ∧ (body.status = t.status → e.oldValue = e.newValue) := by
  have h1 : ¬(actor.role ≠ Role.admin ∧ actor.role ≠ Role.dev) := by
    rcases hauth with h | ⟨h, _⟩ <;> simp [h]
  have h2 : ¬(actor.role = Role.dev ∧ t.assignedToUserId ≠ some actor.id) := by
    rcases hauth with h | ⟨h, ha⟩
    · simp [h]
    · simp [h, ha]
  unfold changeStatusRoute updateTicketStatus
  rw [hfind, if_neg h1]
  dsimp only
  rw [if_neg h2]
  constructor
  · rfl
  · obtain ⟨e, he, hk, ho, hn⟩ := statusPipeline_history
      { db with tickets := db.tickets.map (fun u =>
          if u.id = id then { u with status := body.status, updatedAt := now } else u) }
      id actor.id body.comment now
      { ticketId := id, actorUserId := actor.id, actorName := actor.username,
        kind := .STATUS_CHANGED, oldValue := some (statusToString t.status),
        newValue := some (statusToString body.status),
        message := some ("Status changed from " ++ STATUS_LABELS t.status
          ++ " to " ++ STATUS_LABELS body.status) }
      t body.status t.status actor.username tr
    exact ⟨e, he, hk, ho, hn, fun hs => by rw [ho, hn, hs]⟩

/-- C4 witness: the admin re-sets ticket 10 to its current status `open`;
the call succeeds and the history entry has oldValue = newValue. -/
theorem changeStatus_any_transition_witness :
    (changeStatusRoute adminUser 10 { status := .open_, comment := none } 7
        (.ok ()) baseDB).1
      = .ok (some { ticket1 with status := .open_, updatedAt := 7 })
    ∧ ∃ e : HistoryEntry,
        (changeStatusRoute adminUser 10 { status := .open_, comment := none } 7
            (.ok ()) baseDB).2.history = baseDB.history ++ [e]
        ∧ e.kind = .STATUS_CHANGED
        ∧ e.oldValue = some (statusToString ticket1.status)
        ∧ e.newValue = some (statusToString Status.open_)
        ∧ (Status.open_ = ticket1.status → e.oldValue = e.newValue) :=
  changeStatus_any_transition adminUser 10 { status := .open_, comment := none }
    7 (.ok ()) baseDB ticket1 (Or.inl rfl) rfl

/-- The created-ticket notification pair leaves the tickets table
unchanged. -/
theorem sendTicketEmailCreated_tickets (db : DB) (t : Ticket) (u : User)
    (tr : Except String Unit) (now : Nat) :
    (sendTicketEmailCreated db t u tr now).2.tickets = db.tickets := by
  cases tr <;> rfl

/-- The created-ticket notification pair leaves the history table
unchanged. -/
theorem sendTicketEmailCreated_history (db : DB) (t : Ticket) (u : User)
    (tr : Except String Unit) (now : Nat) :
    (sendTicketEmailCreated db t u tr now).2.history = db.history := by
  cases tr <;> rfl

/-- Two consecutive sendEmail calls append exactly two log rows, given the
freshness invariant that prior log ids sit below the id counter. -/
theorem sendEmail_twice_emailLogs (dbS : DB) (a1 : List String)
    (s1 h1 t1 : String) (a2 : List String) (s2 h2 t2 : String)
    (tr : Except String Unit) (now : Nat)
    (hfresh : ∀ l ∈ dbS.emailLogs, l.id < dbS.nextId) :
    ∃ l1 l2 : EmailLog,
      (sendEmail (sendEmail dbS a1 s1 h1 t1 tr now).2 a2 s2 h2 t2 tr now).2.emailLogs
        = dbS.emailLogs ++ [l1, l2] := by
  obtain ⟨l1, hid1, he1, -, -⟩ := sendEmail_emailLogs dbS a1 s1 h1 t1 tr now
    (fun l hl => Nat.ne_of_lt (hfresh l hl))
  have hn1 : (sendEmail dbS a1 s1 h1 t1 tr now).2.nextId = dbS.nextId + 1 := by
    cases tr <;> rfl
  have hfresh2 : ∀ l ∈ (sendEmail dbS a1 s1 h1 t1 tr now).2.emailLogs,
      l.id ≠ (sendEmail dbS a1 s1 h1 t1 tr now).2.nextId := by
    intro l hl
    rw [he1] at hl
    rw [hn1]
    rcases List.mem_append.mp hl with h | h
    · exact Nat.ne_of_lt (Nat.lt_succ_of_lt (hfresh l h))
    · have hl1 : l = l1 := by simpa using h
      rw [hl1, hid1]
      omega
  obtain ⟨l2, -, he2, -, -⟩ := sendEmail_emailLogs
    (sendEmail dbS a1 s1 h1 t1 tr now).2 a2 s2 h2 t2 tr now hfresh2
  refine ⟨l1, l2, ?_⟩
  rw [he2, he1]
  simp

/-- C5 counterexample: the server accepts a CreateTicket call whose title
has 4 characters — no ValidationError — and writes the ticket row, a
history entry, and two email log entries. -/
theorem createTicket_short_title_accepted :
    shortTitleInput.title.length = 4
    ∧ (createTicketRoute plainUser shortTitleInput 7 (.ok ()) baseDB).1.isOk = true
    ∧ (createTicketRoute plainUser shortTitleInput 7 (.ok ()) baseDB).2.tickets.length
        = baseDB.tickets.length + 1
    ∧ (createTicketRoute plainUser shortTitleInput 7 (.ok ()) baseDB).2.history.length
        = baseDB.history.length + 1
    ∧ (createTicketRoute plainUser shortTitleInput 7 (.ok ()) baseDB).2.emailLogs.length
        = baseDB.emailLogs.length + 2 := by
  exact ⟨rfl, rfl, rfl, rfl, rfl⟩

/-- C5 amended: the server-side insertTicketSchema imposes no length bounds
on title or description (those exist only in the client form schema), so
every well-typed CreateTicket call succeeds regardless of title and
description length, appending the ticket row, a CREATED history entry, and
the two email log entries of the created notification. -/
theorem createTicket_accepts_any_length (actor : User) (input : InsertTicket)
    (now : Nat) (tr : Except String Unit) (db : DB)
    (hfresh : ∀ l ∈ db.emailLogs, l.id < db.nextId) :
    ∃ t : Ticket,
      (createTicketRoute actor input now tr db).1 = .ok t
      ∧ t.title = input.title
      ∧ t.description = input.description
      ∧ (createTicketRoute actor input now tr db).2.tickets = db.tickets ++ [t]
      ∧ (∃ e : HistoryEntry,
          (createTicketRoute actor input now tr db).2.history = db.history ++ [e]
          ∧ e.kind = .CREATED
          ∧ e.message = some ("Ticket created: " ++ input.title))
      ∧ (∃ l1 l2 : EmailLog,
          (createTicketRoute actor input now tr db).2.emailLogs
            = db.emailLogs ++ [l1, l2]) := by
  refine ⟨(createTicket db input actor.id now).1, rfl, rfl, rfl,
    sendTicketEmailCreated_tickets _ _ _ _ _, ?_, ?_⟩
  · refine ⟨{ id := db.nextId + 1, ticketId := db.nextId,
              actorUserId := actor.id, actorName := actor.username,
              kind := .CREATED, oldValue := none, newValue := none,
              message := some ("Ticket created: " ++ input.title),
              createdAt := now }, ?_, rfl, rfl⟩
    exact sendTicketEmailCreated_history _ _ _ _ _
  · exact sendEmail_twice_emailLogs _ _ _ _
      ("New ticket: " ++ input.title ++ " by " ++ actor.username) _ _ _
      ("Your ticket \"" ++ input.title ++ "\" has been submitted.") tr now
      (fun l hl => by
        have h := hfresh l hl
        show l.id < db.nextId + 2
        omega)

/-- C5 amended-claim witness: the concrete 4-character-title call on the
sample database. -/
theorem createTicket_accepts_any_length_witness :
    ∃ t : Ticket,
      (createTicketRoute plainUser shortTitleInput 7 (.ok ()) baseDB).1 = .ok t
      ∧ t.title = shortTitleInput.title
      ∧ t.description = shortTitleInput.description
      ∧ (createTicketRoute plainUser shortTitleInput 7 (.ok ()) baseDB).2.tickets
          = baseDB.tickets ++ [t]
      ∧ (∃ e : HistoryEntry,
          (createTicketRoute plainUser shortTitleInput 7 (.ok ()) baseDB).2.history
            = baseDB.history ++ [e]
          ∧ e.kind = .CREATED
          ∧ e.message = some ("Ticket created: " ++ shortTitleInput.title))
      ∧ (∃ l1 l2 : EmailLog,
          (createTicketRoute plainUser shortTitleInput 7 (.ok ()) baseDB).2.emailLogs
            = baseDB.emailLogs ++ [l1, l2]) :=
  createTicket_accepts_any_length plainUser shortTitleInput 7 (.ok ()) baseDB
    (by decide)

/-- C6: DeleteTicket is admin-only — any other role gets ForbiddenError and
the database is untouched — and for an admin it removes every attachment,
comment and history row of the ticket and the ticket row itself, so a
subsequent read returns NotFoundError. -/
theorem deleteTicket_admin_cascade (actor : User) (id : Nat) (db : DB) :
    (actor.role ≠ .admin →
      deleteTicketRoute actor id db
        = (.error (.forbidden "Admin access required"), db))
    ∧ (actor.role = .admin →
      (deleteTicketRoute actor id db).1 = .ok ()
      ∧ getAttachmentsByTicketId (deleteTicketRoute actor id db).2 id = []
      ∧ getCommentsByTicketId (deleteTicketRoute actor id db).2 id = []
      ∧ getHistoryByTicketId (deleteTicketRoute actor id db).2 id = []
      ∧ getTicketById (deleteTicketRoute actor id db).2 id = none
      ∧ getTicketRoute actor id (deleteTicketRoute actor id db).2
          = .error (.notFound "Ticket not found")) := by
  constructor
  · intro h
    simp [deleteTicketRoute, h]
  · intro h
    have hroute : deleteTicketRoute actor id db = (.ok (), deleteTicket db id) := by
      simp [deleteTicketRoute, h]
    rw [hroute]
    have hfindnone : getTicketById (deleteTicket db id) id = none := by
      unfold getTicketById deleteTicket
      rw [List.find?_eq_none]
      intro t ht
      have := List.mem_filter.mp ht
      simpa using this.2
    refine ⟨rfl, ?_, ?_, ?_, hfindnone, ?_⟩
    · unfold getAttachmentsByTicketId deleteTicket
      rw [List.filter_eq_nil_iff]
      intro a ha
      have := List.mem_filter.mp ha
      simpa using this.2
    · unfold getCommentsByTicketId deleteTicket
      rw [List.filter_eq_nil_iff]
      intro a ha
      have := List.mem_filter.mp ha
      simpa using this.2
    · unfold getHistoryByTicketId deleteTicket
      rw [List.filter_eq_nil_iff]
      intro a ha
      have := List.mem_filter.mp ha
      simpa using this.2
    · unfold getTicketRoute
      rw [hfindnone]

/-- C6 witness: the spec scenario on ticket 10 (3 comments, 2 attachments,
4 history entries): the admin delete clears all of them and the subsequent
read 404s, while the plain user's delete is forbidden and changes
nothing. -/
theorem deleteTicket_admin_cascade_witness :
    ((deleteTicketRoute adminUser 10 baseDB).1 = .ok ()
      ∧ getAttachmentsByTicketId (deleteTicketRoute adminUser 10 baseDB).2 10 = []
      ∧ getCommentsByTicketId (deleteTicketRoute adminUser 10 baseDB).2 10 = []
      ∧ getHistoryByTicketId (deleteTicketRoute adminUser 10 baseDB).2 10 = []
      ∧ getTicketById (deleteTicketRoute adminUser 10 baseDB).2 10 = none
      ∧ getTicketRoute adminUser 10 (deleteTicketRoute adminUser 10 baseDB).2
          = .error (.notFound "Ticket not found"))
    ∧ deleteTicketRoute plainUser 10 baseDB
        = (.error (.forbidden "Admin access required"), baseDB) :=
  ⟨(deleteTicket_admin_cascade adminUser 10 baseDB).2 rfl,
   (deleteTicket_admin_cascade plainUser 10 baseDB).1 (by decide)⟩

/-- Composed effect of comment step, history insert and email block on the
email log, when the ticket owner resolves: exactly one log row is
appended, `failed` with the captured non-null error message on transport
failure and `sent` on success. -/
theorem statusPipeline_emailLogs (dbU : DB) (id aid : Nat) (c : Option String)
    (now : Nat) (entryIn : InsertHistory) (ticket : Ticket) (ns os : Status)
    (cb : String) (tr : Except String Unit) (owner : User)
    (howner : getUser dbU ticket.userId = some owner)
    (hfresh : ∀ l ∈ dbU.emailLogs, l.id < dbU.nextId) :
    ∃ log : EmailLog,
      (statusChangedEmailStep
          (createHistory (statusCommentStep dbU id aid c now) entryIn now).2
          ticket ns os cb tr now).emailLogs
        = dbU.emailLogs ++ [log]
      ∧ (∀ m, tr = .error m → log.status = .failed
          ∧ log.error = some (if m = "" then "Unknown error" else m))
      ∧ (tr = .ok () → log.status = .sent ∧ log.error = none) := by
  obtain ⟨hu2, -, h2, he2, hn2⟩ := statusCommentStep_frame dbU id aid c now
  have husers : ((createHistory (statusCommentStep dbU id aid c now) entryIn now).2).users
      = dbU.users := hu2
  have hlogs : ((createHistory (statusCommentStep dbU id aid c now) entryIn now).2).emailLogs
      = dbU.emailLogs := he2
  have hnext : dbU.nextId
      ≤ ((createHistory (statusCommentStep dbU id aid c now) entryIn now).2).nextId :=
    Nat.le_succ_of_le hn2
  have howner3 : getUser ((createHistory (statusCommentStep dbU id aid c now) entryIn now).2)
      ticket.userId = some owner := by
    unfold getUser at howner ⊢
    rw [husers]
    exact howner
  unfold statusChangedEmailStep
  rw [howner3]
  have hfresh3 : ∀ l ∈ ((createHistory (statusCommentStep dbU id aid c now) entryIn now).2).emailLogs,
      l.id ≠ ((createHistory (statusCommentStep dbU id aid c now) entryIn now).2).nextId := by
    intro l hl
    rw [hlogs] at hl
    exact Nat.ne_of_lt (Nat.lt_of_lt_of_le (hfresh l hl) hnext)
  obtain ⟨log, -, hl1, hl2, hl3⟩ := sendEmail_emailLogs
    ((createHistory (statusCommentStep dbU id aid c now) entryIn now).2)
    (owner.email
      :: getAdminRecipients ((createHistory (statusCommentStep dbU id aid c now) entryIn now).2))
    ("[BugFlow] Status Update: \"" ++ ticket.title ++ "\" - " ++ STATUS_LABELS ns)
    (buildEmailHtml "Ticket Status Updated"
      [ "<strong>Ticket:</strong> " ++ ticket.title,
        "<strong>App:</strong> " ++ APP_LABELS ticket.app,
        "<strong>Status:</strong> <span>" ++ STATUS_LABELS os ++ "</span> &rarr; <strong>"
          ++ STATUS_LABELS ns ++ "</strong>",
        "<strong>Updated by:</strong> " ++ cb ])
    ("Ticket \"" ++ ticket.title ++ "\" status changed from " ++ STATUS_LABELS os
      ++ " to " ++ STATUS_LABELS ns)
    tr now hfresh3
  refine ⟨log, ?_, hl2, hl3⟩
  rw [← hlogs]
  exact hl1

/-- C7: an email transport failure during ChangeStatus does not affect the
mutation — the caller still gets the updated ticket — and the send
attempt's EmailLog row ends `failed` with a non-empty error message (or
`sent` on transport success). -/
theorem changeStatus_email_failure_isolated (actor : User) (id : Nat)
    (body : StatusUpdate) (now : Nat) (tr : Except String Unit) (db : DB)
    (t : Ticket) (owner : User)
    (hauth : actor.role = .admin
      ∨ (actor.role = .dev ∧ t.assignedToUserId = some actor.id))
    (hfind : getTicketById db id = some t)
    (howner : getUser db t.userId = some owner)
    (hfresh : ∀ l ∈ db.emailLogs, l.id < db.nextId) :
    (changeStatusRoute actor id body now tr db).1
      = .ok (some { t with status := body.status, updatedAt := now })
    ∧ ∃ log : EmailLog,
        (changeStatusRoute actor id body now tr db).2.emailLogs
          = db.emailLogs ++ [log]
        ∧ (∀ m, tr = .error m → log.status = .failed
            ∧ ∃ e, log.error = some e ∧ e ≠ "")
        ∧ (tr = .ok () → log.status = .sent) := by
  have h1 : ¬(actor.role ≠ Role.admin ∧ actor.role ≠ Role.dev) := by
    rcases hauth with h | ⟨h, _⟩ <;> simp [h]
  have h2 : ¬(actor.role = Role.dev ∧ t.assignedToUserId ≠ some actor.id) := by
    rcases hauth with h | ⟨h, ha⟩
    · simp [h]
    · simp [h, ha]
  unfold changeStatusRoute updateTicketStatus
  rw [hfind, if_neg h1]
  dsimp only
  rw [if_neg h2]
  constructor
  · rfl
  · obtain ⟨log, hl1, hl2, hl3⟩ := statusPipeline_emailLogs
      { db with tickets := db.tickets.map (fun u =>
          if u.id = id then { u with status := body.status, updatedAt := now } else u) }
      id actor.id body.comment now
      { ticketId := id, actorUserId := actor.id, actorName := actor.username,
        kind := .STATUS_CHANGED, oldValue := some (statusToString t.status),
        newValue := some (statusToString body.status),
        message := some ("Status changed from " ++ STATUS_LABELS t.status
          ++ " to " ++ STATUS_LABELS body.status) }
      t body.status t.status actor.username tr owner howner hfresh
    refine ⟨log, hl1, ?_, fun h => (hl3 h).1⟩
    intro m hm
    obtain ⟨hs, he⟩ := hl2 m hm
    refine ⟨hs, if m = "" then "Unknown error" else m, he, ?_⟩
    by_cases hme : m = "" <;> simp [hme]

/-- C7 witness: the admin changes the status of ticket 10 while the
transport throws "boom"; the call still returns the updated ticket and the
log row it appended is `failed` with error "boom". -/
theorem changeStatus_email_failure_isolated_witness :
    (changeStatusRoute adminUser 10 { status := .resolved, comment := none } 7
        (.error "boom") baseDB).1
      = .ok (some { ticket1 with status := .resolved, updatedAt := 7 })
    ∧ ∃ log : EmailLog,
        (changeStatusRoute adminUser 10 { status := .resolved, comment := none } 7
            (.error "boom") baseDB).2.emailLogs
          = baseDB.emailLogs ++ [log]
        ∧ (∀ m, (Except.error "boom" : Except String Unit) = .error m →
            log.status = .failed ∧ ∃ e, log.error = some e ∧ e ≠ "")
        ∧ ((Except.error "boom" : Except String Unit) = .ok () → log.status = .sent) :=
  changeStatus_email_failure_isolated adminUser 10
    { status := .resolved, comment := none } 7 (.error "boom") baseDB ticket1
    plainUser (Or.inl rfl) rfl rfl (by decide)

/-- C8: fetching a single existing ticket succeeds for a plain user exactly
on their own tickets, for an admin always, and for a dev exactly on tickets
they submitted or are assigned to; every other case is ForbiddenError. -/
theorem getTicket_access_control (actor : User) (id : Nat) (db : DB)
    (t : Ticket) (hfind : getTicketById db id = some t) :
    (actor.role = .user →
      (getTicketRoute actor id db = .ok t ↔ t.userId = actor.id))
    ∧ (actor.role = .admin → getTicketRoute actor id db = .ok t)
    ∧ (actor.role = .dev →
      (getTicketRoute actor id db = .ok t
        ↔ (t.userId = actor.id ∨ t.assignedToUserId = some actor.id)))
    ∧ (getTicketRoute actor id db = .ok t
        ∨ getTicketRoute actor id db = .error (.forbidden "Not authorized")) := by
  unfold getTicketRoute
  rw [hfind]
  dsimp only
  refine ⟨?_, ?_, ?_, ?_⟩
  · intro hr
    split_ifs with hc1 hc2 <;> simp_all
  · intro hr
    split_ifs with hc1 hc2 <;> simp_all
  · intro hr
    split_ifs with hc1 hc2 <;> simp_all
    tauto
  · split_ifs with hc1 hc2
    · right; rfl
    · right; rfl
    · left; rfl

/-- C8 witness: dev 2 (assignee) reads ticket 10, dev 4 does not, the admin
does, the submitter (user 3) does. -/
theorem getTicket_access_control_witness :
    (getTicketRoute devUser 10 baseDB = .ok ticket1
      ↔ (ticket1.userId = devUser.id ∨ ticket1.assignedToUserId = some devUser.id))
    ∧ (getTicketRoute otherDev 10 baseDB = .ok ticket1
      ↔ (ticket1.userId = otherDev.id ∨ ticket1.assignedToUserId = some otherDev.id))
    ∧ getTicketRoute adminUser 10 baseDB = .ok ticket1
    ∧ (getTicketRoute plainUser 10 baseDB = .ok ticket1
      ↔ ticket1.userId = plainUser.id) :=
  ⟨(getTicket_access_control devUser 10 baseDB ticket1 rfl).2.2.1 rfl,
   (getTicket_access_control otherDev 10 baseDB ticket1 rfl).2.2.1 rfl,
   (getTicket_access_control adminUser 10 baseDB ticket1 rfl).2.1 rfl,
   (getTicket_access_control plainUser 10 baseDB ticket1 rfl).1 rfl⟩

/-- C9: ticket creation starts with updatedAt = createdAt, and under an
advancing clock every successful status update and assignment update sets
updatedAt to the call time, strictly increasing it and preserving
updatedAt ≥ createdAt. -/
theorem ticket_updatedAt_invariant (db : DB) (id : Nat) (t : Ticket)
    (input : InsertTicket) (uid : Nat) (s : Status) (a : Option Nat)
    (an : Option String) (now : Nat)
    (hfind : getTicketById db id = some t)
    (hinv : t.createdAt ≤ t.updatedAt)
    (hclock : t.updatedAt < now) :
    (createTicket db input uid now).1.createdAt
      = (createTicket db input uid now).1.updatedAt
    ∧ (∃ t1, (updateTicketStatus db id s now).1 = some t1
        ∧ t1.updatedAt = now
        ∧ t.updatedAt < t1.updatedAt
        ∧ t1.createdAt ≤ t1.updatedAt)
    ∧ (∃ t2, (assignTicket db id a an now).1 = some t2
        ∧ t2.updatedAt = now
        ∧ t.updatedAt < t2.updatedAt
        ∧ t2.createdAt ≤ t2.updatedAt) := by
  refine ⟨rfl, ?_, ?_⟩
  · unfold updateTicketStatus
    rw [hfind]
    exact ⟨_, rfl, rfl, hclock, Nat.le_of_lt (Nat.lt_of_le_of_lt hinv hclock)⟩
  · unfold assignTicket
    rw [hfind]
    exact ⟨_, rfl, rfl, hclock, Nat.le_of_lt (Nat.lt_of_le_of_lt hinv hclock)⟩

/-- C9 witness: on ticket 10 (createdAt 5 ≤ updatedAt 6) at time 7, both
mutations bump updatedAt to 7 and keep updatedAt ≥ createdAt. -/
theorem ticket_updatedAt_invariant_witness :
    (createTicket baseDB shortTitleInput 3 7).1.createdAt
      = (createTicket baseDB shortTitleInput 3 7).1.updatedAt
    ∧ (∃ t1, (updateTicketStatus baseDB 10 .resolved 7).1 = some t1
        ∧ t1.updatedAt = 7
        ∧ ticket1.updatedAt < t1.updatedAt
        ∧ t1.createdAt ≤ t1.updatedAt)
    ∧ (∃ t2, (assignTicket baseDB 10 (some 4) (some "joe_dev") 7).1 = some t2
        ∧ t2.updatedAt = 7
        ∧ ticket1.updatedAt < t2.updatedAt
        ∧ t2.createdAt ≤ t2.updatedAt) :=
  ticket_updatedAt_invariant baseDB 10 ticket1 shortTitleInput 3 .resolved
    (some 4) (some "joe_dev") 7 rfl (by decide) (by decide)

/-- C10: for any authenticated actor, the comments read (on an existing
ticket), the attachment-metadata read and the download of an attachment
with data all succeed, and none of these reads nor the history read
depends on the actor beyond their role — no ownership or assignment check
is applied. -/
theorem subresource_reads_unrestricted (actor a2 : User) (tid aid : Nat)
    (db : DB) :
    ((getTicketById db tid).isSome → ∃ l, getCommentsRoute actor tid db = .ok l)
    ∧ (∃ l, getAttachmentsRoute actor tid db = .ok l)
    ∧ (∀ att, getAttachmentById db aid = some att → att.fileData ≠ "" →
        ∃ p, downloadAttachmentRoute actor aid db = .ok p)
    ∧ getAttachmentsRoute actor tid db = getAttachmentsRoute a2 tid db
    ∧ downloadAttachmentRoute actor aid db = downloadAttachmentRoute a2 aid db
    ∧ (actor.role = a2.role →
        getCommentsRoute actor tid db = getCommentsRoute a2 tid db
        ∧ getHistoryRoute actor tid db = getHistoryRoute a2 tid db) := by
  refine ⟨?_, ⟨_, rfl⟩, ?_, rfl, rfl, ?_⟩
  · intro hsome
    unfold getCommentsRoute
    cases hfind : getTicketById db tid with
    | none => rw [hfind] at hsome; cases hsome
    | some t => exact ⟨_, rfl⟩
  · intro att hatt hdata
    unfold downloadAttachmentRoute
    rw [hatt]
    dsimp only
    rw [if_neg hdata]
    exact ⟨_, rfl⟩
  · intro hrole
    constructor
    · unfold getCommentsRoute
      rw [hrole]
    · unfold getHistoryRoute
      rw [hrole]

/-- C10 witness: the plain user (neither assignee nor with any admin right
on ticket 10's attachments) reads comments, attachment metadata, and
downloads attachment 40, and each read agrees with that of another user of
the same role. -/
theorem subresource_reads_unrestricted_witness :
    (∃ l, getCommentsRoute plainUser 10 baseDB = .ok l)
    ∧ (∃ l, getAttachmentsRoute plainUser 10 baseDB = .ok l)
    ∧ (∃ p, downloadAttachmentRoute plainUser 40 baseDB = .ok p) := by
  obtain ⟨h1, h2, h3, -, -, -⟩ :=
    subresource_reads_unrestricted plainUser adminUser 10 40 baseDB
  exact ⟨h1 rfl, h2, h3 (sampleAttachment 40 10) rfl (by decide)⟩

end BugFlow
